import Mathlib

/-!
Verification development for the StampFly hovering flight-control core.
The repository ships the interface header `flight_control.hpp`; the
constants and the `AutoFlightState` enumeration below are transcribed from
it.  The control logic itself (the 400 Hz tick, PID, mixer, sequencer and
command channel bodies) lives in a translation unit that is not part of
the sources, so those operations are modelled from the design document.
Real values are embedded as rationals.
-/

/-- Battery voltage constant, `flight_control.hpp` line 35. -/
def BATTERY_VOLTAGE : ℚ := 37/10

/-- Number of calibration samples, `flight_control.hpp` line 37. -/
def AVERAGENUM : Nat := 800

/-- Undervoltage threshold, `flight_control.hpp` line 39. -/
def POWER_LIMIT : ℚ := 334/100

/-- Undervoltage debounce tick count, `flight_control.hpp` line 40. -/
def UNDER_VOLTAGE_COUNT : Nat := 100

/-- Altitude safety limit, `flight_control.hpp` line 55. -/
def ALT_LIMIT : ℚ := 2

/-- Lower bound of the altitude reference, `flight_control.hpp` line 56. -/
def ALT_REF_MIN : ℚ := 5/100

/-- Upper bound of the altitude reference, `flight_control.hpp` line 57. -/
def ALT_REF_MAX : ℚ := 18/10

/-- Auto-flight sequencer states, `flight_control.hpp` lines 43-51. -/
inductive AutoFlightState where
  | AUTO_INIT
  | AUTO_CALIBRATION
  | AUTO_WAIT
  | AUTO_TAKEOFF
  | AUTO_HOVER
  | AUTO_LANDING
  | AUTO_COMPLETE
deriving DecidableEq

open AutoFlightState

/-- Numeric value of each sequencer state as assigned by the enum,
`flight_control.hpp` lines 43-51. -/
def stateIdx : AutoFlightState → Nat
  | AUTO_INIT => 0
  | AUTO_CALIBRATION => 1
  | AUTO_WAIT => 2
  | AUTO_TAKEOFF => 3
  | AUTO_HOVER => 4
  | AUTO_LANDING => 5
  | AUTO_COMPLETE => 6

/-- Modelled from the spec: the per-tick inputs read by the auto-flight
sequencer (the sequencer body is not in the sources, only the enum and
globals are declared in `flight_control.hpp`).  `underVoltageCount` is the
Safety Monitor's count of consecutive ticks with averaged voltage below
POWER_LIMIT; `altLimitFlag` is set when measured altitude exceeds
ALT_LIMIT; the remaining fields are the nominal transition triggers of
section 4.4 of the design document. -/
structure SeqInputs where
  underVoltageCount : Nat
  altLimitFlag : Bool
  abortTrigger : Bool
  calibDone : Bool
  armTrigger : Bool
  altReachedHover : Bool
  landCommand : Bool
  landingDone : Bool
deriving DecidableEq

/-- Modelled from the spec: the Safety Monitor's undervoltage debounce
counter update — it counts consecutive ticks with averaged voltage below
POWER_LIMIT and resets once the voltage recovers. -/
def underVoltageStep (count : Nat) (voltage : ℚ) : Nat :=
  if voltage < POWER_LIMIT then count + 1 else 0

/-- Modelled from the spec: the forced-landing trigger — the undervoltage
counter exceeds UNDER_VOLTAGE_COUNT consecutive ticks, or the
altitude-limit flag is raised. -/
def forceLanding (i : SeqInputs) : Bool :=
  decide (UNDER_VOLTAGE_COUNT < i.underVoltageCount) || i.altLimitFlag

/-- Modelled from the spec: the nominal per-tick transition table of the
auto-flight sequencer (section 4.4), together with the externally
triggered abort path back to `AUTO_INIT`.  The sequencer body is not in
the sources. -/
def seqStepNominal (s : AutoFlightState) (i : SeqInputs) : AutoFlightState :=
  if i.abortTrigger then AUTO_INIT
  else
    match s with
    | AUTO_INIT => AUTO_CALIBRATION
    | AUTO_CALIBRATION => if i.calibDone then AUTO_WAIT else AUTO_CALIBRATION
    | AUTO_WAIT => if i.armTrigger then AUTO_TAKEOFF else AUTO_WAIT
    | AUTO_TAKEOFF => if i.altReachedHover then AUTO_HOVER else AUTO_TAKEOFF
    | AUTO_HOVER => if i.landCommand then AUTO_LANDING else AUTO_HOVER
    | AUTO_LANDING => if i.landingDone then AUTO_COMPLETE else AUTO_LANDING
    | AUTO_COMPLETE => AUTO_COMPLETE

/-- Modelled from the spec: the full per-tick sequencer step — the
forced-landing transitions override the nominal machine with top
priority.  The design document is self-contradictory at `AUTO_COMPLETE`:
section 4.4 says any state may force-transition to Landing, while the
same section freezes all reference updates at Complete until Init is
re-entered, and the data-model invariant forbids every backward
transition except abort-to-Init (Complete to Landing would be backward).
The model resolves the conflict in favour of the two invariants: the
forced-landing override applies to every state except `AUTO_COMPLETE`,
where the machine stays put (motors are already forced off there) until
the external abort re-enters `AUTO_INIT`. -/
def seqStep (s : AutoFlightState) (i : SeqInputs) : AutoFlightState :=
  if forceLanding i = true ∧ s ≠ AUTO_COMPLETE then AUTO_LANDING
  else seqStepNominal s i

/-- Claim C10: the altitude constants of `flight_control.hpp` satisfy
0 < ALT_REF_MIN < ALT_REF_MAX < ALT_LIMIT, so the clamped
altitude-reference envelope lies strictly inside the safety limit. -/
theorem C10_theorem :
    0 < ALT_REF_MIN ∧ ALT_REF_MIN < ALT_REF_MAX ∧ ALT_REF_MAX < ALT_LIMIT := by
  refine ⟨?_, ?_, ?_⟩ <;> norm_num [ALT_REF_MIN, ALT_REF_MAX, ALT_LIMIT]

/-- Claim C1 (counterexample): the claim quantifies over every sequencer
state, but at `AUTO_COMPLETE` with the altitude-limit flag raised the
step does not reach `AUTO_LANDING` within one tick — it stays at
`AUTO_COMPLETE`, as required by the freeze-at-Complete and
no-backward-transition sentences of the same document. -/
theorem C1_counterexample :
    forceLanding ⟨0, true, false, false, false, false, false, false⟩ = true ∧
    seqStep AUTO_COMPLETE ⟨0, true, false, false, false, false, false, false⟩ ≠
      AUTO_LANDING := by
  decide

/-- Claim C1 (amended): from every sequencer state other than
`AUTO_COMPLETE`, if the undervoltage counter exceeds UNDER_VOLTAGE_COUNT
or the altitude-limit flag is set, the auto-flight state becomes
`AUTO_LANDING` within one tick; and when neither trigger is active the
step coincides with the nominal machine, so the forced-landing
transitions are the only priority-overriding ones. -/
theorem C1_theorem (s : AutoFlightState) (i : SeqInputs) :
    (s ≠ AUTO_COMPLETE → forceLanding i = true → seqStep s i = AUTO_LANDING) ∧
    (forceLanding i = false → seqStep s i = seqStepNominal s i) := by
  constructor
  · intro hs hf
    simp [seqStep, hf, hs]
  · intro hf
    simp [seqStep, hf]

/-- Claim C1 witness: at `AUTO_HOVER` with the altitude-limit flag set,
one tick lands the machine in `AUTO_LANDING`. -/
theorem C1_witness :
    seqStep AUTO_HOVER ⟨0, true, false, false, false, false, false, false⟩ =
      AUTO_LANDING :=
  (C1_theorem AUTO_HOVER ⟨0, true, false, false, false, false, false, false⟩).1
    (by decide) (by decide)

/-- The nominal transition table never moves backward when the abort
trigger is off. -/
theorem seqStepNominal_forward (s : AutoFlightState) (i : SeqInputs)
    (h : i.abortTrigger = false) : stateIdx s ≤ stateIdx (seqStepNominal s i) := by
  cases s <;> simp only [seqStepNominal, h, Bool.false_eq_true, if_false] <;>
    (try split) <;> simp [stateIdx]

/-- Claim C2: every per-tick transition of the sequencer is forward in
the enum order (self-loops included), except the externally triggered
abort path back to `AUTO_INIT`; no other backward transition occurs. -/
theorem C2_theorem (s : AutoFlightState) (i : SeqInputs) :
    stateIdx s ≤ stateIdx (seqStep s i) ∨
    (i.abortTrigger = true ∧ seqStep s i = AUTO_INIT) := by
  by_cases h : forceLanding i = true ∧ s ≠ AUTO_COMPLETE
  · left
    simp only [seqStep, if_pos h]
    cases s <;> first
      | exact absurd rfl h.2
      | simp [stateIdx]
  · simp only [seqStep, if_neg h]
    by_cases ha : i.abortTrigger = true
    · exact Or.inr ⟨ha, by simp [seqStepNominal, ha]⟩
    · exact Or.inl (seqStepNominal_forward s i (Bool.eq_false_iff.mpr ha))

/-- Modelled from the spec: the immutable per-axis PID gain tuple
(section 3, PidGainSet); only `extern const float` declarations for the
six instances appear in `flight_control.hpp`. -/
structure PidGains where
  kp : ℚ
  ti : ℚ
  td : ℚ
  eta : ℚ
deriving DecidableEq

/-- Modelled from the spec: the mutable per-axis PID state (section 3,
PidInstance) — integrator accumulator, filtered-derivative state, the
previous measurement backing the derivative-on-measurement, the held
previous output, and the timing-fault health counter of section 7. -/
structure PidState where
  integral : ℚ
  dFilt : ℚ
  prevMeas : ℚ
  prevOut : ℚ
  healthCount : Nat
deriving DecidableEq

/-- Modelled from the spec: `PID.compute(reference, measurement, dt)`
(section 4.1); the PID body is not in the sources.  A non-positive dt
fails fast: the previous output is held, the integrator and derivative
state are untouched and the health counter is incremented.  Otherwise the
output combines the proportional term with the pre-update integral and
filtered-derivative state (so the first tick after a reset is purely
proportional); the integral accumulates kp*error*dt/ti unless the
actuator is saturated (anti-windup by suspension); the derivative is
taken on the measurement and first-order filtered with time constant
td/eta. -/
def compute (g : PidGains) (st : PidState) (ref meas dt : ℚ)
    (saturated : Bool) : PidState × ℚ :=
  if dt ≤ 0 then
    ({ st with healthCount := st.healthCount + 1 }, st.prevOut)
  else
    let err := ref - meas
    let output := g.kp * err + st.integral - g.kp * g.td * st.dFilt
    let integralNext :=
      if saturated then st.integral else st.integral + g.kp * err * dt / g.ti
    let rawDeriv := (meas - st.prevMeas) / dt
    let dFiltNext := st.dFilt + (rawDeriv - st.dFilt) / (g.td / g.eta)
    ({ integral := integralNext, dFilt := dFiltNext, prevMeas := meas,
       prevOut := output, healthCount := st.healthCount }, output)

/-- Modelled from the spec: the PID reset operation (section 4.1) zeroes
the integral accumulator and the derivative state; the held output and
the health counter are observability state, not control state, and are
kept. -/
def reset (st : PidState) : PidState :=
  { st with integral := 0, dFilt := 0, prevMeas := 0 }

/-- Claim C5: with a non-positive dt, `compute` fails fast — the previous
output is held and returned, the integrator and filtered-derivative state
are not modified, and the health counter is incremented.  (In this
rational-valued embedding every result is a finite rational by
construction, which is the model-level form of the no-NaN/Inf clause.) -/
theorem C5_theorem (g : PidGains) (st : PidState) (ref meas dt : ℚ)
    (sat : Bool) (hdt : dt ≤ 0) :
    (compute g st ref meas dt sat).2 = st.prevOut ∧
    (compute g st ref meas dt sat).1.integral = st.integral ∧
    (compute g st ref meas dt sat).1.dFilt = st.dFilt ∧
    (compute g st ref meas dt sat).1.prevOut = st.prevOut ∧
    (compute g st ref meas dt sat).1.healthCount = st.healthCount + 1 := by
  simp [compute, hdt]

/-- Claim C5 witness: a concrete scheduler-fault call with dt = 0. -/
theorem C5_witness :
    (compute ⟨1, 1, 1, 1⟩ ⟨2, 3, 4, 5, 6⟩ 7 8 0 false).2 = (5 : ℚ) ∧
    (compute ⟨1, 1, 1, 1⟩ ⟨2, 3, 4, 5, 6⟩ 7 8 0 false).1.integral = 2 ∧
    (compute ⟨1, 1, 1, 1⟩ ⟨2, 3, 4, 5, 6⟩ 7 8 0 false).1.dFilt = 3 ∧
    (compute ⟨1, 1, 1, 1⟩ ⟨2, 3, 4, 5, 6⟩ 7 8 0 false).1.prevOut = 5 ∧
    (compute ⟨1, 1, 1, 1⟩ ⟨2, 3, 4, 5, 6⟩ 7 8 0 false).1.healthCount = 6 + 1 :=
  C5_theorem ⟨1, 1, 1, 1⟩ ⟨2, 3, 4, 5, 6⟩ 7 8 0 false (by norm_num)

/-- Claim C6: anti-windup by suspension — whenever the saturation flag is
raised, `compute` leaves the integral accumulator exactly unchanged, for
every gain set, state, reference, measurement and interval (the
fail-fast branch also preserves it). -/
theorem C6_theorem (g : PidGains) (st : PidState) (ref meas dt : ℚ) :
    (compute g st ref meas dt true).1.integral = st.integral := by
  by_cases hdt : dt ≤ 0 <;> simp [compute, hdt]

/-- Claim C7: `reset` zeroes the integral accumulator and the
filtered-derivative state, and the first `compute` call after a reset
with a positive dt returns exactly the pure-proportional response
kp*(reference - measurement). -/
theorem C7_theorem (g : PidGains) (st : PidState) (ref meas dt : ℚ)
    (sat : Bool) (hdt : 0 < dt) :
    (reset st).integral = 0 ∧ (reset st).dFilt = 0 ∧
    (compute g (reset st) ref meas dt sat).2 = g.kp * (ref - meas) := by
  have h : ¬dt ≤ 0 := not_le.mpr hdt
  refine ⟨rfl, rfl, ?_⟩
  simp [compute, reset, h]

/-- Claim C7 witness: a concrete first call after reset returns the
pure-proportional response. -/
theorem C7_witness :
    (reset ⟨2, 3, 4, 5, 6⟩).integral = 0 ∧ (reset ⟨2, 3, 4, 5, 6⟩).dFilt = 0 ∧
    (compute ⟨7, 1, 1, 1⟩ (reset ⟨2, 3, 4, 5, 6⟩) 10 4 1 false).2 =
      7 * (10 - 4) :=
  C7_theorem ⟨7, 1, 1, 1⟩ ⟨2, 3, 4, 5, 6⟩ 10 4 1 false (by norm_num)

/-- Saturating clamp of a duty value into the unit interval; the last
line of actuator-safety defense described in section 4.3. -/
def clamp01 (x : ℚ) : ℚ := max 0 (min 1 x)

/-- Modelled from the spec: the four per-motor duties.  Only the setter
declarations `set_duty_fr` .. `set_duty_rl` appear in
`flight_control.hpp`; the mixer body is not in the sources. -/
structure MotorDuties where
  fr : ℚ
  fl : ℚ
  rr : ℚ
  rl : ℚ
deriving DecidableEq

/-- Modelled from the spec: the Motor Mixer (section 4.3) — a pure,
stateless linear X-configuration mix of thrust and the three torque
commands, saturated per motor into the unit interval. -/
def motor_duties (t r p y : ℚ) : MotorDuties :=
  { fr := clamp01 (t - r + p + y)
    fl := clamp01 (t + r + p - y)
    rr := clamp01 (t - r - p - y)
    rl := clamp01 (t + r - p + y) }

/-- The clamp always lands in the unit interval. -/
theorem clamp01_mem (x : ℚ) : 0 ≤ clamp01 x ∧ clamp01 x ≤ 1 :=
  ⟨le_max_left 0 _, max_le (by norm_num) (min_le_left 1 x)⟩

/-- Claim C3: for every (possibly out-of-range) thrust and torque input,
each of the four mixed motor duties lies in the unit interval — saturated,
not wrapped — and the nominal spot check holds: thrust one-half with all
torques zero yields all four duties equal to one-half. -/
theorem C3_theorem :
    (∀ t r p y : ℚ,
      (0 ≤ (motor_duties t r p y).fr ∧ (motor_duties t r p y).fr ≤ 1) ∧
      (0 ≤ (motor_duties t r p y).fl ∧ (motor_duties t r p y).fl ≤ 1) ∧
      (0 ≤ (motor_duties t r p y).rr ∧ (motor_duties t r p y).rr ≤ 1) ∧
      (0 ≤ (motor_duties t r p y).rl ∧ (motor_duties t r p y).rl ≤ 1)) ∧
    motor_duties (1/2) 0 0 0 = ⟨1/2, 1/2, 1/2, 1/2⟩ := by
  constructor
  · intro t r p y
    exact ⟨clamp01_mem _, clamp01_mem _, clamp01_mem _, clamp01_mem _⟩
  · simp [motor_duties, clamp01]
    norm_num

/-- Modelled from the spec: the externally received command message
(section 3, CommandEnvelope); only the feedback declaration
`send_angle_feedback(roll_cmd, pitch_cmd, sequence)` appears in
`flight_control.hpp`. -/
structure Envelope where
  roll_cmd : ℚ
  pitch_cmd : ℚ
  seq : Nat
deriving DecidableEq

/-- Modelled from the spec: the Command Channel Adapter's applied-command
state — the sequence number of the last applied envelope and the angle
overrides it carries. -/
structure CmdState where
  lastSeq : Nat
  roll_cmd : ℚ
  pitch_cmd : ℚ
deriving DecidableEq

/-- Modelled from the spec: the Adapter's state before any envelope has
been applied. -/
def initCmdState : CmdState := { lastSeq := 0, roll_cmd := 0, pitch_cmd := 0 }

/-- Modelled from the spec: envelope application at the Command Channel
Adapter (section 4.5); the adapter body is not in the sources.  An
envelope is applied exactly when its sequence number is strictly greater
than that of the last applied envelope; otherwise it is dropped silently
and the state is left untouched.  The boolean is the applied/dropped
outcome, not an error. -/
def applyEnvelope (st : CmdState) (e : Envelope) : CmdState × Bool :=
  if st.lastSeq < e.seq then
    ({ lastSeq := e.seq, roll_cmd := e.roll_cmd, pitch_cmd := e.pitch_cmd }, true)
  else
    (st, false)

/-- Modelled from the spec: feeding a list of envelopes through the
Adapter in arrival order, collecting the sequence numbers of the applied
ones. -/
def runEnvelopes (st : CmdState) : List Envelope → CmdState × List Nat
  | [] => (st, [])
  | e :: rest =>
    let step := applyEnvelope st e
    let tail := runEnvelopes step.1 rest
    (tail.1, if step.2 then e.seq :: tail.2 else tail.2)

/-- Claim C4: an envelope is applied exactly when its sequence number is
strictly greater than the last applied one, a dropped envelope leaves the
Adapter state untouched (silent drop, no error), and for arrival order
[5, 3, 7, 7] exactly sequences 5 then 7 are applied. -/
theorem C4_theorem :
    (∀ (st : CmdState) (e : Envelope),
      (applyEnvelope st e).2 = decide (st.lastSeq < e.seq) ∧
      (applyEnvelope st e).1 =
        if st.lastSeq < e.seq then
          { lastSeq := e.seq, roll_cmd := e.roll_cmd, pitch_cmd := e.pitch_cmd }
        else st) ∧
    (runEnvelopes initCmdState
      [⟨0, 0, 5⟩, ⟨0, 0, 3⟩, ⟨0, 0, 7⟩, ⟨0, 0, 7⟩]).2 = [5, 7] := by
  constructor
  · intro st e
    by_cases h : st.lastSeq < e.seq <;> simp [applyEnvelope, h]
  · decide

/-- Modelled from the spec: the per-tick control state of section 3
(ControlState) — the sequencer phase, the rate/angle/thrust/altitude
references and the four motor duties; the globals are declared in
`flight_control.hpp` lines 126-147 but owned by the missing tick body. -/
structure ControlState where
  auto_state : AutoFlightState
  Roll_rate_reference : ℚ
  Pitch_rate_reference : ℚ
  Yaw_rate_reference : ℚ
  Roll_angle_reference : ℚ
  Pitch_angle_reference : ℚ
  Thrust_command : ℚ
  Roll_rate_command : ℚ
  Pitch_rate_command : ℚ
  Yaw_rate_command : ℚ
  Alt_ref : ℚ
  FrontRight_motor_duty : ℚ
  FrontLeft_motor_duty : ℚ
  RearRight_motor_duty : ℚ
  RearLeft_motor_duty : ℚ
deriving DecidableEq

/-- Per-tick increment of the ramped altitude reference (a configuration
constant of the missing tick body; its exact value is irrelevant to the
stated properties). -/
def ALT_RAMP_STEP : ℚ := 1/400

/-- Modelled from the spec: every write of the altitude reference clamps
it into [ALT_REF_MIN, ALT_REF_MAX] (section 4.2); the body performing the
writes is not in the sources. -/
def setAltRef (x : ℚ) : ℚ := max ALT_REF_MIN (min ALT_REF_MAX x)

/-- Modelled from the spec: the reference-and-output part of the 400 Hz
tick (sections 2 and 4.4); the tick body `loop_400Hz` is only declared in
`flight_control.hpp`.  The sequencer advances first; in the flight phases
the altitude reference is ramped (up during takeoff, held during hover,
down during landing) through the clamping setter and the duties come from
the mixer applied to the current thrust and torque commands; on the
ground (Init, Calibration, Wait) and at Complete the duties are forced to
zero, and at Complete no reference is updated. -/
def controlTick (st : ControlState) (i : SeqInputs) : ControlState :=
  match seqStep st.auto_state i with
  | AUTO_TAKEOFF =>
    { st with auto_state := AUTO_TAKEOFF
              Alt_ref := setAltRef (st.Alt_ref + ALT_RAMP_STEP)
              FrontRight_motor_duty := (motor_duties st.Thrust_command
                st.Roll_rate_command st.Pitch_rate_command st.Yaw_rate_command).fr
              FrontLeft_motor_duty := (motor_duties st.Thrust_command
                st.Roll_rate_command st.Pitch_rate_command st.Yaw_rate_command).fl
              RearRight_motor_duty := (motor_duties st.Thrust_command
                st.Roll_rate_command st.Pitch_rate_command st.Yaw_rate_command).rr
              RearLeft_motor_duty := (motor_duties st.Thrust_command
                st.Roll_rate_command st.Pitch_rate_command st.Yaw_rate_command).rl }
  | AUTO_HOVER =>
    { st with auto_state := AUTO_HOVER
              Alt_ref := setAltRef st.Alt_ref
              FrontRight_motor_duty := (motor_duties st.Thrust_command
                st.Roll_rate_command st.Pitch_rate_command st.Yaw_rate_command).fr
              FrontLeft_motor_duty := (motor_duties st.Thrust_command
                st.Roll_rate_command st.Pitch_rate_command st.Yaw_rate_command).fl
              RearRight_motor_duty := (motor_duties st.Thrust_command
                st.Roll_rate_command st.Pitch_rate_command st.Yaw_rate_command).rr
              RearLeft_motor_duty := (motor_duties st.Thrust_command
                st.Roll_rate_command st.Pitch_rate_command st.Yaw_rate_command).rl }
  | AUTO_LANDING =>
    { st with auto_state := AUTO_LANDING
              Alt_ref := setAltRef (st.Alt_ref - ALT_RAMP_STEP)
              FrontRight_motor_duty := (motor_duties st.Thrust_command
                st.Roll_rate_command st.Pitch_rate_command st.Yaw_rate_command).fr
              FrontLeft_motor_duty := (motor_duties st.Thrust_command
                st.Roll_rate_command st.Pitch_rate_command st.Yaw_rate_command).fl
              RearRight_motor_duty := (motor_duties st.Thrust_command
                st.Roll_rate_command st.Pitch_rate_command st.Yaw_rate_command).rr
              RearLeft_motor_duty := (motor_duties st.Thrust_command
                st.Roll_rate_command st.Pitch_rate_command st.Yaw_rate_command).rl }
  | s =>
    { st with auto_state := s
              FrontRight_motor_duty := 0
              FrontLeft_motor_duty := 0
              RearRight_motor_duty := 0
              RearLeft_motor_duty := 0 }

/-- Modelled from the spec: the preallocated startup state — the
sequencer begins at Init, every reference and duty is zero except the
altitude reference, which starts at its clamped lower bound. -/
def initState : ControlState :=
  { auto_state := AUTO_INIT
    Roll_rate_reference := 0, Pitch_rate_reference := 0, Yaw_rate_reference := 0
    Roll_angle_reference := 0, Pitch_angle_reference := 0
    Thrust_command := 0
    Roll_rate_command := 0, Pitch_rate_command := 0, Yaw_rate_command := 0
    Alt_ref := ALT_REF_MIN
    FrontRight_motor_duty := 0, FrontLeft_motor_duty := 0
    RearRight_motor_duty := 0, RearLeft_motor_duty := 0 }

/-- Modelled from the spec: a quiet input vector — no safety trigger, no
abort, no nominal transition trigger. -/
def quietInputs : SeqInputs := ⟨0, false, false, false, false, false, false, false⟩

/-- A completed-flight state used as the concrete witness input. -/
def completeState : ControlState := { initState with auto_state := AUTO_COMPLETE }

/-- Claim C8: on every tick that starts at `AUTO_COMPLETE` (and no
external abort re-enters Init), all four motor duties are forced to zero
and none of the rate, angle, thrust or altitude references are updated;
the sequencer stays at `AUTO_COMPLETE`. -/
theorem C8_theorem (st : ControlState) (i : SeqInputs)
    (h1 : st.auto_state = AUTO_COMPLETE) (h2 : i.abortTrigger = false) :
    (controlTick st i).FrontRight_motor_duty = 0 ∧
    (controlTick st i).FrontLeft_motor_duty = 0 ∧
    (controlTick st i).RearRight_motor_duty = 0 ∧
    (controlTick st i).RearLeft_motor_duty = 0 ∧
    (controlTick st i).Roll_rate_reference = st.Roll_rate_reference ∧
    (controlTick st i).Pitch_rate_reference = st.Pitch_rate_reference ∧
    (controlTick st i).Yaw_rate_reference = st.Yaw_rate_reference ∧
    (controlTick st i).Roll_angle_reference = st.Roll_angle_reference ∧
    (controlTick st i).Pitch_angle_reference = st.Pitch_angle_reference ∧
    (controlTick st i).Thrust_command = st.Thrust_command ∧
    (controlTick st i).Alt_ref = st.Alt_ref ∧
    (controlTick st i).auto_state = AUTO_COMPLETE := by
  have hseq : seqStep st.auto_state i = AUTO_COMPLETE := by
    rw [h1]
    simp [seqStep, seqStepNominal, h2]
  simp [controlTick, hseq]

/-- Claim C8 witness: a concrete quiet tick at Complete keeps all duties
at zero and every reference unchanged. -/
theorem C8_witness :
    (controlTick completeState quietInputs).FrontRight_motor_duty = 0 ∧
    (controlTick completeState quietInputs).FrontLeft_motor_duty = 0 ∧
    (controlTick completeState quietInputs).RearRight_motor_duty = 0 ∧
    (controlTick completeState quietInputs).RearLeft_motor_duty = 0 ∧
    (controlTick completeState quietInputs).Roll_rate_reference =
      completeState.Roll_rate_reference ∧
    (controlTick completeState quietInputs).Pitch_rate_reference =
      completeState.Pitch_rate_reference ∧
    (controlTick completeState quietInputs).Yaw_rate_reference =
      completeState.Yaw_rate_reference ∧
    (controlTick completeState quietInputs).Roll_angle_reference =
      completeState.Roll_angle_reference ∧
    (controlTick completeState quietInputs).Pitch_angle_reference =
      completeState.Pitch_angle_reference ∧
    (controlTick completeState quietInputs).Thrust_command =
      completeState.Thrust_command ∧
    (controlTick completeState quietInputs).Alt_ref = completeState.Alt_ref ∧
    (controlTick completeState quietInputs).auto_state = AUTO_COMPLETE :=
  C8_theorem completeState quietInputs rfl rfl

/-- The clamping altitude-reference setter always lands in the
configured envelope. -/
theorem setAltRef_mem (x : ℚ) :
    ALT_REF_MIN ≤ setAltRef x ∧ setAltRef x ≤ ALT_REF_MAX :=
  ⟨le_max_left _ _,
   max_le (by norm_num [ALT_REF_MIN, ALT_REF_MAX]) (min_le_left _ _)⟩

/-- Claim C9: the altitude reference starts inside
[ALT_REF_MIN, ALT_REF_MAX] and every tick keeps it there — each write
goes through the clamping setter and the remaining branches leave it
unchanged — so no reachable tick observes a reference outside the
envelope. -/
theorem C9_theorem :
    (ALT_REF_MIN ≤ initState.Alt_ref ∧ initState.Alt_ref ≤ ALT_REF_MAX) ∧
    ∀ (st : ControlState) (i : SeqInputs),
      ALT_REF_MIN ≤ st.Alt_ref → st.Alt_ref ≤ ALT_REF_MAX →
      ALT_REF_MIN ≤ (controlTick st i).Alt_ref ∧
      (controlTick st i).Alt_ref ≤ ALT_REF_MAX := by
  constructor
  · exact ⟨le_refl _, by norm_num [initState, ALT_REF_MIN, ALT_REF_MAX]⟩
  · intro st i h1 h2
    cases hs : seqStep st.auto_state i <;>
      simp only [controlTick, hs] <;>
      first
        | exact ⟨h1, h2⟩
        | exact setAltRef_mem _

/-- Claim C9 witness: one concrete quiet tick from the startup state
keeps the altitude reference inside the envelope. -/
theorem C9_witness :
    ALT_REF_MIN ≤ (controlTick initState quietInputs).Alt_ref ∧
    (controlTick initState quietInputs).Alt_ref ≤ ALT_REF_MAX :=
  C9_theorem.2 initState quietInputs (le_refl ALT_REF_MIN)
    (by norm_num [initState, ALT_REF_MIN, ALT_REF_MAX])
